import Mathlib

/-!
Verification of the PAXG Telegram bot (`paxg_telegram_bot.py`) against its
specification.  The single Python source file is shallowly embedded below:

* Python numbers (floats) are modelled as exact rationals `ℚ`; the claims
  verified here depend only on sign tests, defaulting and decimal rendering,
  which are exact on the values involved.
* Python dicts of numbers are modelled as association lists
  `List (String × ℚ)`; `d[k]` (which raises `KeyError` on a missing key) is
  `dict_getitem`, and `d.get(k, default)` is `dict_get`.
* The HTTP world is a parameter: `HttpResult` describes what `requests.get`
  plus `raise_for_status` plus `.json()` can yield for one call.
* Fallible Python code becomes `Option`/`Except`; a `try/except Exception`
  block that returns a default becomes a total function returning that
  default on the error paths.
* `datetime.now()` returns local wall-clock time; the `Clock` environment
  carries both the local and the UTC broken-down time so that statements
  about "the current moment in UTC" can be made.
-/

/-- A Python dict with string keys and numeric values (association list). -/
abbrev Dict : Type := List (String × ℚ)

def emptyStr : String := ""

/-- Key lookup in a dict: `some v` when the key is bound, `none` otherwise. -/
def lookup : List (String × ℚ) → String → Option ℚ
  | [], _ => none
  | (k, v) :: rest, key => if k = key then some v else lookup rest key

/-- Python `d.get(key, default)`. -/
def dict_get (d : List (String × ℚ)) (key : String) (default : ℚ) : ℚ :=
  (lookup d key).getD default

/-- The exceptions the embedded code can raise. -/
inductive PyError where
  | keyError (key : String)
  deriving DecidableEq, Repr

/-- Python `d[key]`: raises `KeyError` when the key is missing. -/
def dict_getitem (d : List (String × ℚ)) (key : String) : Except PyError ℚ :=
  match lookup d key with
  | some v => Except.ok v
  | none => Except.error (PyError.keyError key)

/-- JSON body of the quote API: a top-level object keyed by asset id whose
values are objects of currency-keyed numbers (the only shape the code reads). -/
abbrev JsonBody : Type := List (String × List (String × ℚ))

/-- Top-level JSON lookup (`data['pax-gold']`): the nested object if present. -/
def lookupTop : List (String × List (String × ℚ)) → String → Option (List (String × ℚ))
  | [], _ => none
  | (k, v) :: rest, key => if k = key then some v else lookupTop rest key

/-- Outcome of one `requests.get` call as observed by `get_paxg_price`:
either the request raised (connection error / timeout), or a response with a
status code arrived whose body parses as JSON of the expected shape, or a
response arrived whose body is not valid JSON (`.json()` raises). -/
inductive HttpResult where
  | transportError
  | invalidJson (status : Nat)
  | response (status : Nat) (body : List (String × List (String × ℚ)))

/-- `requests.Response.raise_for_status` raises exactly for 4xx/5xx codes. -/
def raise_for_status_raises (status : Nat) : Bool :=
  decide (400 ≤ status) && decide (status < 600)

def key_pax_gold : String := "pax-gold"
def key_usd : String := "usd"
def key_usd_24h_change : String := "usd_24h_change"
def key_usd_market_cap : String := "usd_market_cap"
def key_price : String := "price"
def key_change_24h : String := "change_24h"
def key_market_cap : String := "market_cap"

/-- `get_paxg_price` (source lines 15-40).  The whole body sits in a
`try/except Exception` that returns `None`; hence every raising path
(transport error, `raise_for_status`, `.json()`, the `KeyError` from
`data['pax-gold']['usd']`) becomes `none`.  On success it returns the dict
`{'price': ..., 'change_24h': ..., 'market_cap': ...}` with the two optional
fields read via `.get(_, 0)`. -/
def get_paxg_price (r : HttpResult) : Option (List (String × ℚ)) :=
  match r with
  | HttpResult.transportError => none
  | HttpResult.invalidJson _ => none
  | HttpResult.response status body =>
    if raise_for_status_raises status then none
    else
      match lookupTop body key_pax_gold with
      | none => none
      | some nested =>
        match lookup nested key_usd with
        | none => none
        | some price =>
          some [(key_price, price),
                (key_change_24h, dict_get nested key_usd_24h_change 0),
                (key_market_cap, dict_get nested key_usd_market_cap 0)]

/-- Python truthiness of an optional string (`not x`): `None` and the empty
string are falsy. -/
def py_str_falsy : Option String → Bool
  | none => true
  | some s => s.isEmpty

def CONFIG_ERROR : String := "BOT_TOKEN and CHANNEL_ID environment variables must be set!"

/-- Module-level startup (source lines 7-13): read `BOT_TOKEN` and
`CHANNEL_ID` from the environment and raise `ValueError` when
`not BOT_TOKEN or not CHANNEL_ID`; otherwise the two strings configure the
rest of the program. -/
def startup (bot_token channel_id : Option String) : Except String (String × String) :=
  if py_str_falsy bot_token || py_str_falsy channel_id then
    Except.error CONFIG_ERROR
  else
    -- on this branch both values are `some` of a non-empty string
    Except.ok (bot_token.getD emptyStr, channel_id.getD emptyStr)

/-- Round the non-negative value `n / d` to the nearest integer, ties to
even (the rounding Python's fixed-point float formatting performs). -/
def roundHalfEvenDiv (n d : Nat) : Nat :=
  let whole := n / d
  let rem := n % d
  if 2 * rem < d then whole
  else if d < 2 * rem then whole + 1
  else if whole % 2 = 0 then whole else whole + 1

/-- Zero-pad the decimal rendering of `n` on the left to `width` digits. -/
def natDecimalPad (n : Nat) (width : Nat) : String :=
  let s := toString n
  String.mk (List.replicate (width - s.length) '0') ++ s

/-- Insert a `,` after every third character of a reversed digit list
(helper for the thousands grouping of Python's `,` format flag). -/
def group3rev : List Char → List Char
  | a :: b :: c :: d :: rest => a :: b :: c :: ',' :: group3rev (d :: rest)
  | l => l

/-- Decimal rendering of `n` with thousands separators (`f"{n:,}"` on the
integer part). -/
def natGrouped (n : Nat) : String :=
  String.mk (group3rev (toString n).data.reverse).reverse

/-- Python `f"{x:.prec f}"` on an exact rational: sign taken from the input,
magnitude scaled by `10 ^ prec`, rounded half-to-even, then split into
integer and padded fractional digits (no point when `prec = 0`). -/
def pyFixed (prec : Nat) (x : ℚ) : String :=
  -- |x| * 10 ^ prec = (x.num.natAbs * 10 ^ prec) / x.den, exactly
  let scaled := roundHalfEvenDiv (x.num.natAbs * 10 ^ prec) x.den
  let ip := scaled / 10 ^ prec
  let fp := scaled % 10 ^ prec
  (if x < 0 then "-" else "") ++ toString ip ++
    (if prec = 0 then "" else "." ++ natDecimalPad fp prec)

/-- Python `f"{x:,.prec f}"`: as `pyFixed` but with thousands separators on
the integer part. -/
def pyCommaFixed (prec : Nat) (x : ℚ) : String :=
  let scaled := roundHalfEvenDiv (x.num.natAbs * 10 ^ prec) x.den
  let ip := scaled / 10 ^ prec
  let fp := scaled % 10 ^ prec
  (if x < 0 then "-" else "") ++ natGrouped ip ++
    (if prec = 0 then "" else "." ++ natDecimalPad fp prec)

/-- A broken-down calendar time, as `datetime` exposes it to `strftime`. -/
structure DateTime where
  year : Nat
  month : Nat
  day : Nat
  hour : Nat
  minute : Nat
  second : Nat
  deriving DecidableEq, Repr

/-- `strftime('%Y-%m-%d %H:%M:%S')` on a broken-down time. -/
def strftime_ymd_hms (t : DateTime) : String :=
  natDecimalPad t.year 4 ++ "-" ++ natDecimalPad t.month 2 ++ "-" ++
    natDecimalPad t.day 2 ++ " " ++ natDecimalPad t.hour 2 ++ ":" ++
    natDecimalPad t.minute 2 ++ ":" ++ natDecimalPad t.second 2

/-- The wall clock at the moment `format_message` runs: `datetime.now()`
yields `localTime` (the machine's local time); `utcTime` is the same moment
in UTC.  The two coincide exactly when the machine's timezone is UTC. -/
structure Clock where
  localTime : DateTime
  utcTime : DateTime

def FAILURE_NOTICE : String := "❌ Unable to fetch PAXG price"

/-- Python truthiness of `price_data` in `format_message`: `None` and the
empty dict are falsy. -/
def py_dict_falsy : Option (List (String × ℚ)) → Bool
  | none => true
  | some d => d.isEmpty

def MSG_HEAD : String := "\n🪙 *PAXG Price Update*\n\n💰 Price: $"
def MSG_CHANGE_LBL : String := " 24h Change: "
def MSG_MCAP_LBL : String := "%\n📊 Market Cap: $"
def MSG_UPDATED_LBL : String := "\n\n🕐 Updated: "
def MSG_TAIL : String := " UTC\n"
def TREND_UP : String := "📈"
def TREND_DOWN : String := "📉"
def PLUS_SIGN : String := "+"

/-- `format_message` (source lines 42-64).  `None` (and, by Python
truthiness, an empty dict) yields the fixed failure notice.  Otherwise the
three `price_data[...]` item accesses can raise `KeyError` (hence the
`Except`); the message is the f-string template, whose literal fragments are
the `MSG_*` constants above, rendered around `f"{price:,.2f}"`,
`f"{change:.2f}"`, `f"{market_cap:,.0f}"` and
`datetime.now().strftime('%Y-%m-%d %H:%M:%S UTC')` — note the source
formats `datetime.now()` (local time) yet appends the literal " UTC". -/
def format_message (clock : Clock) (price_data : Option (List (String × ℚ))) :
    Except PyError String :=
  if py_dict_falsy price_data then Except.ok FAILURE_NOTICE
  else
    -- `price_data` is a non-empty `some` here; project the dict out
    let d := price_data.getD []
    match dict_getitem d key_price, dict_getitem d key_change_24h,
        dict_getitem d key_market_cap with
    | Except.error e, _, _ => Except.error e
    | Except.ok _, Except.error e, _ => Except.error e
    | Except.ok _, Except.ok _, Except.error e => Except.error e
    | Except.ok price, Except.ok change, Except.ok market_cap =>
      let trend := if 0 ≤ change then TREND_UP else TREND_DOWN
      let change_sign := if 0 ≤ change then PLUS_SIGN else emptyStr
      Except.ok (MSG_HEAD ++ pyCommaFixed 2 price ++ "\n" ++ trend ++
        MSG_CHANGE_LBL ++ change_sign ++ pyFixed 2 change ++ MSG_MCAP_LBL ++
        pyCommaFixed 0 market_cap ++ MSG_UPDATED_LBL ++
        strftime_ymd_hms clock.localTime ++ MSG_TAIL)

/-- Posting interval in seconds (source line 9). -/
def INTERVAL : Nat := 300

/-- Observable effects of one pass through the loop body, in order. -/
inductive Effect where
  | published (text : String) (ok : Bool)
  | slept (seconds : Nat)
  | raised (e : PyError)
  deriving DecidableEq, Repr

/-- `send_telegram_message` (source lines 66-81): its whole body is wrapped
in `try/except Exception`, so it never raises; it attempts exactly one POST
carrying the message and returns `True` on success, `False` on any failure.
`postOk` is the outcome of that POST as determined by the network. -/
def send_telegram_message (postOk : Bool) (message : String) :
    List Effect × Bool :=
  ([Effect.published message postOk], postOk)

/-- The body of one iteration of `main`'s `while True` (source lines 89-101):
fetch, format, send (its boolean result is discarded), then sleep for
`INTERVAL`.  A `KeyError` escaping `format_message` would propagate out of
the body (to the `except Exception` at the loop level), producing no publish
and no interval sleep. -/
def loop_body (http : HttpResult) (clock : Clock) (postOk : Bool) :
    List Effect :=
  match format_message clock (get_paxg_price http) with
  | Except.error e => [Effect.raised e]
  | Except.ok message =>
    (send_telegram_message postOk message).1 ++ [Effect.slept INTERVAL]

/-- The published texts of an effect trace. -/
def publishedTexts (es : List Effect) : List String :=
  es.filterMap fun e =>
    match e with
    | Effect.published t _ => some t
    | _ => none

/-- The two states of the Update Loop. -/
inductive LoopState where
  | Running
  | Stopped
  deriving DecidableEq, Repr

/-- How one iteration of `main`'s `while True` ends (source lines 88-108):
it runs to completion, or `KeyboardInterrupt` is raised (caught by the first
`except`, which breaks), or some other exception escapes the body (caught by
`except Exception`, which sleeps 60 seconds and continues). -/
inductive CycleEvent where
  | ok
  | keyboardInterrupt
  | unexpectedError
  deriving DecidableEq, Repr

/-- One step of the loop driver: the next state and the sleep (in seconds)
performed before the next iteration, `none` when the loop exits.  The `ok`
iteration's `INTERVAL` sleep happens inside the body (`loop_body`); the
60-second sleep is the `except Exception` handler's. -/
def loop_step : LoopState → CycleEvent → LoopState × Option Nat
  | LoopState.Stopped, _ => (LoopState.Stopped, none)
  | LoopState.Running, CycleEvent.ok => (LoopState.Running, some INTERVAL)
  | LoopState.Running, CycleEvent.keyboardInterrupt => (LoopState.Stopped, none)
  | LoopState.Running, CycleEvent.unexpectedError => (LoopState.Running, some 60)

/-- Run the loop driver over a sequence of iteration outcomes. -/
def runLoop (s : LoopState) : List CycleEvent → LoopState
  | [] => s
  | e :: es => runLoop (loop_step s e).1 es

/-- `hay` contains `needle` as a contiguous substring (on the character
lists, so that list infix lemmas and decidability apply). -/
def ContainsSub (hay needle : String) : Prop :=
  needle.data <:+: hay.data

instance (hay needle : String) : Decidable (ContainsSub hay needle) :=
  inferInstanceAs (Decidable (_ <:+: _))

theorem str_data_append (a b : String) : (a ++ b).data = a.data ++ b.data := rfl

/-- The `ok` payload of an `Except PyError String`, empty on `error`
(projection used to state facts about a successfully formatted message). -/
def okOr : Except PyError String → String
  | Except.ok s => s
  | Except.error _ => emptyStr

/-- A sample clock on a machine whose timezone is UTC+01:00: the local
wall clock reads 13:00 while the UTC moment is 12:00. -/
def clockPlusOne : Clock :=
  { localTime := { year := 2024, month := 6, day := 1, hour := 13, minute := 0, second := 0 },
    utcTime := { year := 2024, month := 6, day := 1, hour := 12, minute := 0, second := 0 } }

/-- The spec's worked example quote: price 2650.5, change -1.23, market cap
3000000000 (as the fetcher's dict). -/
def sampleQuote : List (String × ℚ) :=
  [(key_price, mkRat 5301 2), (key_change_24h, mkRat (-123) 100),
   (key_market_cap, 3000000000)]

def sampleToken : String := "123:abc"
def sampleChannel : String := "@paxg_channel"

/-- Any dict `get_paxg_price` returns is the three-field literal from the
source: price, 24h change, market cap, in that order. -/
theorem get_paxg_price_some_shape (r : HttpResult) (d : List (String × ℚ))
    (h : get_paxg_price r = some d) :
    ∃ p c m, d = [(key_price, p), (key_change_24h, c), (key_market_cap, m)] := by
  cases r with
  | transportError => simp [get_paxg_price] at h
  | invalidJson s => simp [get_paxg_price] at h
  | response s b =>
    simp only [get_paxg_price] at h
    split at h
    · exact absurd h (by simp)
    · split at h
      · exact absurd h (by simp)
      · split at h
        · exact absurd h (by simp)
        · exact ⟨_, _, _, (Option.some.injEq _ _ ▸ h).symm⟩

/-- C2: whenever the HTTP request raises (transport error or timeout), the
response status is a 4xx/5xx error, or the parsed JSON lacks the `pax-gold`
top-level key, `get_paxg_price` evaluates to `none` — being a total Lean
function, it raises nothing to its caller. -/
theorem C2_fetch_failure_returns_none (status : Nat) (body : JsonBody) :
    get_paxg_price HttpResult.transportError = none ∧
    (400 ≤ status → status < 600 →
      get_paxg_price (HttpResult.response status body) = none) ∧
    (lookupTop body key_pax_gold = none →
      get_paxg_price (HttpResult.response status body) = none) := by
  refine ⟨rfl, ?_, ?_⟩
  · intro h1 h2
    simp [get_paxg_price, raise_for_status_raises, h1, h2]
  · intro h
    by_cases hr : raise_for_status_raises status = true <;>
      simp [get_paxg_price, hr, h]

theorem C2_witness :
    get_paxg_price HttpResult.transportError = none ∧
    get_paxg_price (HttpResult.response 500 []) = none ∧
    get_paxg_price (HttpResult.response 200 []) = none :=
  ⟨(C2_fetch_failure_returns_none 500 []).1,
   (C2_fetch_failure_returns_none 500 []).2.1 (by decide) (by decide),
   (C2_fetch_failure_returns_none 200 []).2.2 rfl⟩

/-- C3: every result of `get_paxg_price` is either `none` or a dict binding
all three of `price`, `change_24h` and `market_cap`; no partially populated
quote ever reaches `format_message`. -/
theorem C3_quote_fully_populated (r : HttpResult) (d : List (String × ℚ))
    (h : get_paxg_price r = some d) :
    (lookup d key_price).isSome ∧ (lookup d key_change_24h).isSome ∧
      (lookup d key_market_cap).isSome := by
  obtain ⟨p, c, m, rfl⟩ := get_paxg_price_some_shape r d h
  exact ⟨rfl, rfl, rfl⟩

theorem C3_witness :
    (get_paxg_price (HttpResult.response 200 [(key_pax_gold, [(key_usd, 1)])]) =
      some [(key_price, 1), (key_change_24h, 0), (key_market_cap, 0)]) ∧
    (lookup [(key_price, 1), (key_change_24h, 0), (key_market_cap, 0)] key_price).isSome ∧
    (lookup [(key_price, 1), (key_change_24h, 0), (key_market_cap, 0)] key_change_24h).isSome ∧
    (lookup [(key_price, 1), (key_change_24h, 0), (key_market_cap, 0)] key_market_cap).isSome :=
  ⟨rfl, C3_quote_fully_populated
    (HttpResult.response 200 [(key_pax_gold, [(key_usd, 1)])]) _ rfl⟩

/-- C6: a successful response whose nested object has the `usd` price but
omits `usd_24h_change` and/or `usd_market_cap` still yields a populated
quote, the omitted field defaulting to `0`. -/
theorem C6_missing_optionals_default_zero (status : Nat) (body : JsonBody)
    (nested : List (String × ℚ)) (p : ℚ)
    (hs : raise_for_status_raises status = false)
    (htop : lookupTop body key_pax_gold = some nested)
    (hp : lookup nested key_usd = some p) :
    get_paxg_price (HttpResult.response status body) =
      some [(key_price, p),
            (key_change_24h, dict_get nested key_usd_24h_change 0),
            (key_market_cap, dict_get nested key_usd_market_cap 0)] ∧
    (lookup nested key_usd_24h_change = none →
      dict_get nested key_usd_24h_change 0 = 0) ∧
    (lookup nested key_usd_market_cap = none →
      dict_get nested key_usd_market_cap 0 = 0) := by
  refine ⟨by simp [get_paxg_price, hs, htop, hp], ?_, ?_⟩ <;>
    · intro h
      simp [dict_get, h]

theorem C6_witness :
    get_paxg_price (HttpResult.response 200 [(key_pax_gold, [(key_usd, 1)])]) =
      some [(key_price, 1), (key_change_24h, 0), (key_market_cap, 0)] := by
  have h := C6_missing_optionals_default_zero 200 [(key_pax_gold, [(key_usd, 1)])]
    [(key_usd, 1)] 1 rfl rfl rfl
  calc get_paxg_price (HttpResult.response 200 [(key_pax_gold, [(key_usd, 1)])])
      = some [(key_price, 1),
          (key_change_24h, dict_get [(key_usd, 1)] key_usd_24h_change 0),
          (key_market_cap, dict_get [(key_usd, 1)] key_usd_market_cap 0)] := h.1
    _ = some [(key_price, 1), (key_change_24h, 0), (key_market_cap, 0)] := by
          rw [h.2.1 rfl, h.2.2 rfl]

/-- C10: a response whose JSON has the `pax-gold` key but whose nested
object lacks the `usd` price field makes `get_paxg_price` return `none`
(the `KeyError` is caught inside the function) — never a price-less quote,
never an uncaught exception. -/
theorem C10_missing_price_field_returns_none (status : Nat) (body : JsonBody)
    (nested : List (String × ℚ))
    (htop : lookupTop body key_pax_gold = some nested)
    (hp : lookup nested key_usd = none) :
    get_paxg_price (HttpResult.response status body) = none := by
  by_cases hr : raise_for_status_raises status = true <;>
    simp [get_paxg_price, hr, htop, hp]

theorem C10_witness :
    get_paxg_price (HttpResult.response 200 [(key_pax_gold, [])]) = none :=
  C10_missing_price_field_returns_none 200 [(key_pax_gold, [])] [] rfl rfl

/-- On the exact dict shape the fetcher produces, `format_message` raises no
`KeyError` and yields the f-string template instantiated at its values. -/
theorem format_message_dictOf (clock : Clock) (p c m : ℚ) :
    format_message clock
        (some [(key_price, p), (key_change_24h, c), (key_market_cap, m)]) =
      Except.ok (MSG_HEAD ++ pyCommaFixed 2 p ++ "\n" ++
        (if 0 ≤ c then TREND_UP else TREND_DOWN) ++ MSG_CHANGE_LBL ++
        (if 0 ≤ c then PLUS_SIGN else emptyStr) ++ pyFixed 2 c ++
        MSG_MCAP_LBL ++ pyCommaFixed 0 m ++ MSG_UPDATED_LBL ++
        strftime_ymd_hms clock.localTime ++ MSG_TAIL) := rfl

/-- One iteration body, given that formatting succeeded: one publish
attempt carrying exactly the formatted text, then the interval sleep. -/
theorem loop_body_of_format (http : HttpResult) (clock : Clock) (postOk : Bool)
    (msg : String)
    (h : format_message clock (get_paxg_price http) = Except.ok msg) :
    loop_body http clock postOk =
      [Effect.published msg postOk, Effect.slept INTERVAL] := by
  simp [loop_body, h, send_telegram_message]

/-- C1: whatever the fetcher returns, the loop body performs exactly one
publish attempt, carrying exactly the formatter's output (whatever the
publisher's own outcome `postOk`); when the fetch failed the published text
is the fixed failure notice, so a failed fetch never yields silence. -/
theorem C1_always_publishes_formatter_output (http : HttpResult) (clock : Clock)
    (postOk : Bool) :
    ∃ msg, format_message clock (get_paxg_price http) = Except.ok msg ∧
      publishedTexts (loop_body http clock postOk) = [msg] ∧
      (get_paxg_price http = none → msg = FAILURE_NOTICE) := by
  rcases hfetch : get_paxg_price http with _ | d
  · refine ⟨FAILURE_NOTICE, ?_, ?_, fun _ => rfl⟩
    · rfl
    · have hfmt : format_message clock (get_paxg_price http) =
          Except.ok FAILURE_NOTICE := by rw [hfetch]; rfl
      rw [loop_body_of_format http clock postOk _ hfmt]
      rfl
  · obtain ⟨p, c, m, rfl⟩ := get_paxg_price_some_shape http _ hfetch
    have hfmt : format_message clock (get_paxg_price http) =
        Except.ok (MSG_HEAD ++ pyCommaFixed 2 p ++ "\n" ++
          (if 0 ≤ c then TREND_UP else TREND_DOWN) ++ MSG_CHANGE_LBL ++
          (if 0 ≤ c then PLUS_SIGN else emptyStr) ++ pyFixed 2 c ++
          MSG_MCAP_LBL ++ pyCommaFixed 0 m ++ MSG_UPDATED_LBL ++
          strftime_ymd_hms clock.localTime ++ MSG_TAIL) := by
      rw [hfetch]; exact format_message_dictOf clock p c m
    refine ⟨_, format_message_dictOf clock p c m, ?_, ?_⟩
    · rw [loop_body_of_format http clock postOk _ hfmt]
      rfl
    · intro h
      exact absurd h (by simp)

theorem C1_witness :
    ∃ msg, format_message clockPlusOne (get_paxg_price HttpResult.transportError) =
        Except.ok msg ∧
      publishedTexts (loop_body HttpResult.transportError clockPlusOne true) = [msg] ∧
      msg = FAILURE_NOTICE := by
  obtain ⟨msg, h1, h2, h3⟩ :=
    C1_always_publishes_formatter_output HttpResult.transportError clockPlusOne true
  exact ⟨msg, h1, h2, h3 rfl⟩

/-- C5: for a populated quote with non-negative 24h change the message
renders the upward indicator and a leading '+' before the change; for a
negative change it renders the downward indicator and the change begins
with '-', not '+'. -/
theorem C5_change_sign_and_trend (clock : Clock) (p c m : ℚ) :
    ∃ msg, format_message clock
        (some [(key_price, p), (key_change_24h, c), (key_market_cap, m)]) =
        Except.ok msg ∧
      (0 ≤ c →
        ContainsSub msg (TREND_UP ++ MSG_CHANGE_LBL ++ PLUS_SIGN ++ pyFixed 2 c)) ∧
      (c < 0 →
        ContainsSub msg (TREND_DOWN ++ MSG_CHANGE_LBL ++ pyFixed 2 c) ∧
        (pyFixed 2 c).data.head? = some '-') := by
  refine ⟨_, format_message_dictOf clock p c m, ?_, ?_⟩
  · intro hc
    rw [if_pos hc, if_pos hc]
    refine ⟨(MSG_HEAD ++ pyCommaFixed 2 p ++ "\n").data,
      (MSG_MCAP_LBL ++ pyCommaFixed 0 m ++ MSG_UPDATED_LBL ++
        strftime_ymd_hms clock.localTime ++ MSG_TAIL).data, ?_⟩
    simp [str_data_append, List.append_assoc]
  · intro hc
    rw [if_neg (not_le.mpr hc), if_neg (not_le.mpr hc)]
    constructor
    · refine ⟨(MSG_HEAD ++ pyCommaFixed 2 p ++ "\n").data,
        (MSG_MCAP_LBL ++ pyCommaFixed 0 m ++ MSG_UPDATED_LBL ++
          strftime_ymd_hms clock.localTime ++ MSG_TAIL).data, ?_⟩
      simp [str_data_append, List.append_assoc, emptyStr]
    · simp [pyFixed, hc, str_data_append]

theorem C5_witness :
    (∃ msg, format_message clockPlusOne
        (some [(key_price, 2650), (key_change_24h, 5), (key_market_cap, 100)]) =
        Except.ok msg ∧
      ContainsSub msg (TREND_UP ++ MSG_CHANGE_LBL ++ PLUS_SIGN ++ pyFixed 2 5)) ∧
    (∃ msg, format_message clockPlusOne
        (some [(key_price, 2650), (key_change_24h, mkRat (-123) 100),
          (key_market_cap, 100)]) = Except.ok msg ∧
      ContainsSub msg (TREND_DOWN ++ MSG_CHANGE_LBL ++ pyFixed 2 (mkRat (-123) 100)) ∧
      (pyFixed 2 (mkRat (-123) 100)).data.head? = some '-') := by
  constructor
  · obtain ⟨msg, h1, h2, _⟩ := C5_change_sign_and_trend clockPlusOne 2650 5 100
    exact ⟨msg, h1, h2 (by decide)⟩
  · obtain ⟨msg, h1, _, h3⟩ :=
      C5_change_sign_and_trend clockPlusOne 2650 (mkRat (-123) 100) 100
    exact ⟨msg, h1, h3 (by decide)⟩

set_option maxRecDepth 8192 in
/-- C4 (code-bug demonstration): the claim says the message carries the
current moment in UTC in `YYYY-MM-DD HH:MM:SS` form.  The source formats
`datetime.now()` — the local wall-clock time — and appends the literal
string " UTC".  On a machine in timezone UTC+01:00 (`clockPlusOne`), the
published message contains the local timestamp labelled " UTC" and does not
contain the rendering of the actual UTC moment anywhere. -/
theorem C4_timestamp_is_local_labelled_utc :
    (∃ s, format_message clockPlusOne (some sampleQuote) = Except.ok s) ∧
    ContainsSub (okOr (format_message clockPlusOne (some sampleQuote)))
      (strftime_ymd_hms clockPlusOne.localTime ++ MSG_TAIL) ∧
    ¬ ContainsSub (okOr (format_message clockPlusOne (some sampleQuote)))
      (strftime_ymd_hms clockPlusOne.utcTime) := by
  refine ⟨⟨_, rfl⟩, ?_, ?_⟩ <;> decide

/-- C7: the loop leaves `Running` only on a keyboard interrupt; an
unexpected error is followed by a 60 second delay with the loop still
`Running`; over any sequence of iteration outcomes containing no interrupt,
the loop is still `Running`. -/
theorem C7_only_interrupt_stops_loop :
    (∀ e, (loop_step LoopState.Running e).1 = LoopState.Stopped ↔
      e = CycleEvent.keyboardInterrupt) ∧
    loop_step LoopState.Running CycleEvent.unexpectedError =
      (LoopState.Running, some 60) ∧
    (∀ events : List CycleEvent, CycleEvent.keyboardInterrupt ∉ events →
      runLoop LoopState.Running events = LoopState.Running) := by
  refine ⟨?_, rfl, ?_⟩
  · intro e
    cases e <;> simp [loop_step]
  · intro events
    induction events with
    | nil => intro _; rfl
    | cons e es ih =>
      intro h
      rw [List.mem_cons] at h
      push_neg at h
      cases e with
      | ok => simpa [runLoop, loop_step] using ih h.2
      | keyboardInterrupt => exact absurd rfl h.1
      | unexpectedError => simpa [runLoop, loop_step] using ih h.2

theorem C7_witness :
    (loop_step LoopState.Running CycleEvent.keyboardInterrupt).1 =
      LoopState.Stopped ∧
    runLoop LoopState.Running
      [CycleEvent.ok, CycleEvent.unexpectedError, CycleEvent.ok] =
      LoopState.Running :=
  ⟨(C7_only_interrupt_stops_loop.1 CycleEvent.keyboardInterrupt).mpr rfl,
   C7_only_interrupt_stops_loop.2.2 _ (by decide)⟩

/-- C8 (counterexample): both configuration values are present — the token
is the (present) empty string — yet startup raises the fatal error rather
than proceeding, so "with both present it proceeds to the loop" fails. -/
theorem C8_counterexample :
    (some emptyStr : Option String).isSome = true ∧
    (some sampleChannel : Option String).isSome = true ∧
    startup (some emptyStr) (some sampleChannel) = Except.error CONFIG_ERROR :=
  ⟨rfl, rfl, rfl⟩

/-- C8 (amended): if either value is absent, startup fails fatally with the
configuration error; with both present AND non-empty it proceeds, yielding
exactly the two configured strings. -/
theorem C8_amended_config_gate (bot chan : Option String) :
    ((bot = none ∨ chan = none) → startup bot chan = Except.error CONFIG_ERROR) ∧
    (∀ b c, bot = some b → chan = some c → b ≠ emptyStr → c ≠ emptyStr →
      startup bot chan = Except.ok (b, c)) := by
  constructor
  · rintro (rfl | rfl)
    · rfl
    · cases bot with
      | none => rfl
      | some s => simp [startup, py_str_falsy]
  · rintro b c rfl rfl hb hc
    have hb' : b.isEmpty = false := by
      cases hbe : b.isEmpty
      · rfl
      · exact absurd ((String.isEmpty_iff b).mp hbe) hb
    have hc' : c.isEmpty = false := by
      cases hce : c.isEmpty
      · rfl
      · exact absurd ((String.isEmpty_iff c).mp hce) hc
    simp [startup, py_str_falsy, hb', hc']

theorem C8_witness :
    startup none (some sampleChannel) = Except.error CONFIG_ERROR ∧
    startup (some sampleToken) (some sampleChannel) =
      Except.ok (sampleToken, sampleChannel) :=
  ⟨(C8_amended_config_gate none (some sampleChannel)).1 (Or.inl rfl),
   (C8_amended_config_gate (some sampleToken) (some sampleChannel)).2
     sampleToken sampleChannel rfl rfl (by decide) (by decide)⟩

/-- C9: a present-but-empty configuration value behaves exactly like an
absent one — startup is unchanged by replacing `some ""` with `none` in
either position, and fails fatally whenever the token is the empty string. -/
theorem C9_empty_string_like_absent (bot chan : Option String) :
    startup (some emptyStr) chan = startup none chan ∧
    startup bot (some emptyStr) = startup bot none ∧
    startup (some emptyStr) chan = Except.error CONFIG_ERROR := by
  refine ⟨rfl, ?_, rfl⟩
  cases bot <;> rfl
